import Mathlib

set_option maxHeartbeats 1000000

/-
Verification of the FabricMCP SQL analytics pipeline (src/server.py).

The Python source is shallowly embedded: Python strings are Lean `String`s
manipulated through their character lists (`String.data`), matching Python's
character-based semantics (`len`, slicing, `in`, `str.replace`, `str.strip`).
Whitespace and case mapping are modelled over ASCII, which covers every
character the embedded code compares against.  External effects (the ODBC
database and the Azure OpenAI client) are modelled as explicit environments:
a call that can raise is a value of `Except String α`, with the `String`
standing for `str(e)`.
-/

/-- ASCII model of Python's whitespace class (`str.strip`, regex `\s`). -/
def isPySpace (c : Char) : Bool :=
  c == ' ' || c == '\t' || c == '\n' || c == '\r' || c == '\x0b' || c == '\x0c'

/-- ASCII model of the regex word-character class `\w` used by `\b`. -/
def isWordChar (c : Char) : Bool :=
  c.isAlphanum || c == '_'

/-- Python `str.upper` (ASCII). -/
def pyUpper (s : String) : String := String.mk (s.data.map Char.toUpper)

/-- Python `str.lower` (ASCII). -/
def pyLower (s : String) : String := String.mk (s.data.map Char.toLower)

/-- Strip characters satisfying `p` from both ends of a character list. -/
def stripL (p : Char → Bool) (l : List Char) : List Char :=
  ((l.dropWhile p).reverse.dropWhile p).reverse

/-- Python `str.strip()` with no argument. -/
def pyStrip (s : String) : String := String.mk (stripL isPySpace s.data)

/-- Prefix test: `leadsWith pat l` is true when `pat` is a prefix of `l`. -/
def leadsWith : List Char → List Char → Bool
  | [], _ => true
  | _ :: _, [] => false
  | p :: ps, c :: cs => p == c && leadsWith ps cs

/-- Python `str.startswith`. -/
def startsWithS (s pat : String) : Bool := leadsWith pat.data s.data

/-- Substring scan: `containsL pat hay` is Python `pat in hay`. -/
def containsL (pat : List Char) : List Char → Bool
  | [] => pat.isEmpty
  | c :: t => leadsWith pat (c :: t) || containsL pat t

/-- Python `pat in hay` on strings. -/
def containsSubstr (hay pat : String) : Bool := containsL pat.data hay.data

/-- Leftmost single replacement, Python `str.replace(old, new, 1)`. -/
def replaceFirstL (pat rep : List Char) : List Char → List Char
  | [] => if pat.isEmpty then rep else []
  | c :: t =>
    if leadsWith pat (c :: t) then rep ++ (c :: t).drop pat.length
    else c :: replaceFirstL pat rep t

/-- Python `str.replace(old, new, 1)` on strings. -/
def replaceFirst (s pat rep : String) : String :=
  String.mk (replaceFirstL pat.data rep.data s.data)

/-- Leftmost, non-overlapping global replacement, Python `str.replace(old, new)`
for a non-empty `old`. -/
def replaceAllL (pat rep : List Char) (l : List Char) : List Char :=
  match l with
  | [] => []
  | c :: t =>
    if pat ≠ [] ∧ leadsWith pat (c :: t) = true then
      rep ++ replaceAllL pat rep (t.drop (pat.length - 1))
    else
      c :: replaceAllL pat rep t
termination_by l.length
decreasing_by
  · simp only [List.length_cons]
    have := List.length_drop (pat.length - 1) t
    omega
  · simp only [List.length_cons]
    omega

/-- Python `str.replace(old, new)` on strings (`old` non-empty throughout the repo). -/
def replaceAll (s pat rep : String) : String :=
  String.mk (replaceAllL pat.data rep.data s.data)

/-- Python `str.split(sep)` for a single-character separator (keeps empty parts). -/
def splitOnCharL (sep : Char) : List Char → List (List Char)
  | [] => [[]]
  | c :: t =>
    if c == sep then [] :: splitOnCharL sep t
    else
      match splitOnCharL sep t with
      | [] => [[c]]
      | l :: ls => (c :: l) :: ls

/-- Python `'\n'.join(parts)`. -/
def joinNlL : List (List Char) → List Char
  | [] => []
  | [l] => l
  | l :: ls => l ++ '\n' :: joinNlL ls

/-- Python `str.rstrip('`')`: drop trailing backticks. -/
def pyRstripBackticks (s : String) : String :=
  String.mk ((s.data.reverse.dropWhile (fun c => c == '`')).reverse)

/-- Membership in Python's `strip('[]')` character set. -/
def isBracketChar (c : Char) : Bool := c == '[' || c == ']'

/-- Python `str.strip('[]')`. -/
def stripBracketEnds (s : String) : String := String.mk (stripL isBracketChar s.data)

/-! Embedding of clean_generated_sql (src/server.py lines 105-126). -/

/-- Character class `[A-Za-z_\[\]]` heading the bare-fragment repair regex. -/
def fragHead (c : Char) : Bool := c.isAlpha || c == '_' || c == '[' || c == ']'

/-- The list starts with `FROM` (case-insensitive) followed by one `\s` character,
i.e. the `FROM\s+` tail of the repair regex matches here. -/
def fromThenSpace (l : List Char) : Bool :=
  match l with
  | f :: r :: o :: m :: w :: _ =>
    f.toLower == 'f' && r.toLower == 'r' && o.toLower == 'o' && m.toLower == 'm' && isPySpace w
  | _ => false

/-- Pattern `.*FROM\s+` matched anywhere from the current position: `.` does not cross a
newline (no DOTALL flag in the source). -/
def scanDotStarFrom : List Char → Bool
  | [] => false
  | c :: t => fromThenSpace (c :: t) || (!(c == '\n') && scanDotStarFrom t)

/-- Hand-compiled `re.match(r'^[A-Za-z_\[\]]+.*FROM\s+', sql, re.IGNORECASE)`.
Because every class character is not a newline, a match consuming `k ≥ 1` class
characters exists iff one consuming exactly one exists, so the `+` collapses to
a single head test followed by the `.*FROM\s+` scan. -/
def bareFromFragment (s : String) : Bool :=
  match s.data with
  | [] => false
  | c :: t => fragHead c && scanDotStarFrom t

/-- One iteration of the prefix-stripping loop in `clean_generated_sql`:
`if sql.lower().startswith(prefix.lower()): sql = sql[len(prefix):].strip()`. -/
def stripPrefixOnce (sql : String) (pre : String) : String :=
  if startsWithS (pyLower sql) (pyLower pre) then
    pyStrip (String.mk (sql.data.drop pre.data.length))
  else sql

/-- Function `clean_generated_sql` (src/server.py lines 105-126): strips whitespace and
code fences, removes known prefixes, drops trailing backticks, then repairs a
leading `TOP` or a bare `<cols> FROM ...` fragment by prepending `SELECT`. -/
def cleanGeneratedSql (sqlText : String) : String :=
  let sql := pyStrip sqlText
  let sql :=
    if startsWithS sql "```" then
      let lines := splitOnCharL '\n' sql.data
      if lines.length > 2 then String.mk (joinNlL ((lines.drop 1).dropLast))
      else String.mk (replaceAllL "```".data [] sql.data)
    else sql
  let sql := List.foldl stripPrefixOnce sql ["```sql", "sql:", "SQL:", "Query:"]
  let sql := pyRstripBackticks (pyStrip sql)
  let sqlUpper := pyStrip (pyUpper sql)
  if startsWithS sqlUpper "TOP " && !(containsSubstr (String.mk (sqlUpper.data.take 10)) "SELECT") then
    "SELECT " ++ sql
  else if bareFromFragment sql && !(startsWithS sqlUpper "SELECT") then
    "SELECT " ++ sql
  else sql

/-! Embedding of smart_analyze_question (src/server.py lines 310-438). -/

/-- The row-limit injection step (src/server.py lines 344-345):
`if "TOP" not in generated_sql.upper(): generated_sql =
generated_sql.replace("SELECT", f"SELECT TOP {limit}", 1)`. -/
def injectTop (sql : String) (limit : Nat) : String :=
  if containsSubstr (pyUpper sql) "TOP" = false then
    replaceFirst sql "SELECT" ("SELECT TOP " ++ toString limit)
  else sql

def relaxOldText : String :=
  "If uncertain, attempt a query based on the most relevant table and columns"

def relaxNewText : String :=
  "Make a best-guess query using the most relevant table and columns, even if uncertain"

/-- The relaxed retry prompt, `prompt.replace(...)` (src/server.py line 332). -/
def relaxPrompt (prompt : String) : String := replaceAll prompt relaxOldText relaxNewText

def listingWords : List String := ["list", "show", "display", "which", "what"]

/-- The word `w` matches at the head of `l` with a `\b` boundary after it:
the next character (if any) is not a word character. -/
def wordBoundaryAt (w : List Char) (l : List Char) : Bool :=
  leadsWith w l &&
    (match l.drop w.length with
     | [] => true
     | c :: _ => !(isWordChar c))

/-- Hand-compiled `re.match(r'^\s*(list|show|display|which|what)\b',
question.lower(), re.IGNORECASE)` (src/server.py line 398).  The alternatives
all start with a letter, so the greedy `\s*` never needs to backtrack. -/
def isListingQuestion (question : String) : Bool :=
  let ql := (pyLower question).data.dropWhile isPySpace
  listingWords.any (fun w => wordBoundaryAt w.data ql)

/-- Modelled from the claim's wording, for comparison with `isListingQuestion`:
after leading whitespace the question begins, case-insensitively, with one of
the listing words at a word boundary (both sides lowered for the
case-insensitive comparison). -/
def listingSpecification (question : String) : Bool :=
  let rest := (pyLower question).data.dropWhile isPySpace
  listingWords.any (fun w => wordBoundaryAt (pyLower w).data rest)

/-- The listing-style summarization prompt template (src/server.py lines 401-412). -/
def listingAnalysisPrompt (context question : String) : String :=
  "\nBased on this data, provide a formatted list of the results to answer the question. Include all fields for each item, using clear labels.\n\nData: " ++
  context ++ "\nQuestion: " ++ question ++
  "\n\nFormat the response as a numbered list, e.g.:\n1. Device: [Field1: Value1, Field2: Value2, ...]\n2. Device: [Field1: Value1, Field2: Value2, ...]\nIf no results, state: \"No items found matching the criteria.\"\nEnsure all returned items are listed, up to the provided data limit.\n"

/-- The direct-answer summarization prompt template (src/server.py lines 414-421). -/
def directAnalysisPrompt (context question : String) : String :=
  "\nBased on this data, answer the question directly and concisely:\n\nData: " ++
  context ++ "\nQuestion: " ++ question ++ "\n\nProvide a specific, direct answer:\n"

/-- One table row of `list_fabric_tables` output as consumed by
`smart_analyze_question` (the `type` and `working_format` keys are unused there
and omitted). -/
structure TableRef where
  schema : String
  name : String
  fullName : String
  deriving DecidableEq, Repr

/-- External environment of one `smart_analyze_question` request.  Each field
is the observed behavior of one helper whose own body only wraps database or
LLM calls; `.error e` models the helper raising with `str(e) = e`.  The LLM is
a stream of responses indexed by call number; rows returned by `execute_query`
and the rendering `json.dumps(results[:limit], ...)` are opaque. -/
structure Env where
  listTables : Except String (List TableRef)
  tablesInfo : Except String String
  buildPrompt : String → String → Nat → String
  llm : Nat → Except String String
  execQuery : String → Except String (List String)
  schemaCols : String → Except String (List (String × String))
  renderContext : List String → String

/-- The JSON object returned by `smart_analyze_question`: `question` is always
present, every other key is optional. -/
structure AnalyzeResponse where
  question : String
  error : Option String := none
  analysis : Option String := none
  generatedSql : Option String := none
  availableTables : Option (List String) := none
  suggestion : Option String := none
  suggestions : Option (List String) := none
  resultCount : Option Nat := none
  results : Option (List String) := none
  deriving DecidableEq, Repr

/-- Observational trace of one run: which intermediate values existed and what
was sent to the database and the LLM.  Used to state reachability claims. -/
structure Trace where
  tablesListed : Option (List TableRef) := none
  genPrompts : List String := []
  cleanedSql : Option String := none
  injectedSql : Option String := none
  executedGenerated : Option String := none
  resultsFetched : Option (List String) := none
  summaryPrompts : List String := []
  deriving DecidableEq, Repr

/-- The `except` handler wrapping the whole of `smart_analyze_question`
(src/server.py lines 432-438). -/
def analysisFailed (question e : String) : AnalyzeResponse :=
  { question := question
    error := some ("Analysis failed: " ++ e)
    suggestion := some "Check connection and try a simpler question" }

def defaultSuggestions : List String :=
  ["Check column values using /api/fabric/inspect-table",
   "Try alternative conditions (e.g., date-based or different status values)"]

/-- Per-column suggestion accumulation in the empty-result branch
(src/server.py lines 378-384). -/
def addSuggestion (acc : List String) (col : String × String) : List String :=
  if col.2 = "bit" ∨ col.2 = "int" then
    acc ++ ["Try [" ++ col.1 ++ "] = 0 or [" ++ col.1 ++ "] = 1"]
  else if col.2 = "datetime" ∨ col.2 = "date" then
    acc ++ ["Try [" ++ col.1 ++ "] < DATEADD(day, -30, GETDATE())"]
  else if col.2 = "varchar" ∨ col.2 = "nvarchar" ∨ col.2 = "char" ∨ col.2 = "nchar" then
    acc ++ ["Try LOWER([" ++ col.1 ++ "]) = LOWER(\x27outdated\x27)"]
  else acc

/-- Full table names listed in error payloads:
`[t["full_name"] for t in available_tables]`. -/
def fullNames (ts : List TableRef) : List String := ts.map (fun t => t.fullName)

/-- The lowercased qualified name `f"[{t['schema']}].[{t['name']}]".lower()`
used by the table-reference validity check (src/server.py line 347). -/
def qualifiedLower (t : TableRef) : String :=
  pyLower ("[" ++ t.schema ++ "].[" ++ t.name ++ "]")

/-- Summarization stage (src/server.py lines 396-431): render the context,
pick the listing or direct prompt, call the LLM once, and build the success
payload. -/
def summaryStage (env : Env) (question : String) (limit : Nat) (generatedSql : String)
    (results : List String) (tr : Trace) (k : Nat) : AnalyzeResponse × Trace :=
  let context := env.renderContext (results.take limit)
  let p :=
    if isListingQuestion question then listingAnalysisPrompt context question
    else directAnalysisPrompt context question
  let tr := { tr with summaryPrompts := [p] }
  match env.llm k with
  | .error e => (analysisFailed question e, tr)
  | .ok analysis =>
      ({ question := question
         generatedSql := some generatedSql
         analysis := some analysis
         resultCount := some results.length
         results := some results }, tr)

/-- Empty-result branch (src/server.py lines 371-394): find the referenced
table, unpack its qualified name (`schema, table = table_name.strip('[]').split('.')`
raises `ValueError` when the split does not yield exactly two parts, landing in
the outer handler), inspect its schema for suggestions, and answer without an
LLM call. -/
def noResultsStage (env : Env) (question : String) (ts : List TableRef)
    (generatedSql queryLower : String) (allValidNames : List String) (tr : Trace) :
    AnalyzeResponse × Trace :=
  let noResultsResp (sgs : List String) : AnalyzeResponse :=
    { question := question
      generatedSql := some generatedSql
      analysis := some "Query executed but returned no results"
      availableTables := some (fullNames ts)
      suggestions := some (if sgs = [] then defaultSuggestions else sgs) }
  match allValidNames.find? (fun n => containsSubstr queryLower n) with
  | none => (noResultsResp [], tr)
  | some tname =>
    if tname = "" then (noResultsResp [], tr)
    else
      match splitOnCharL '.' (stripBracketEnds tname).data with
      | [schemaPart, tablePart] =>
        match env.schemaCols (String.mk schemaPart ++ "." ++ String.mk tablePart) with
        | .error e => (noResultsResp ["Error inspecting table: " ++ e], tr)
        | .ok cols => (noResultsResp (cols.foldl addSuggestion []), tr)
      | _ =>
        (analysisFailed question "ValueError: unpacking table name", tr)

/-- Validation, limit injection, execution and summarization of one cleaned
generated query (src/server.py lines 337-431).  `k` is the index of the next
LLM call. -/
def afterGeneration (env : Env) (question : String) (limit : Nat) (ts : List TableRef)
    (generatedSql : String) (tr : Trace) (k : Nat) : AnalyzeResponse × Trace :=
  let tr := { tr with cleanedSql := some generatedSql }
  if startsWithS (pyUpper generatedSql) "SELECT" = false then
    ({ question := question
       error := some "Generated query is not a SELECT statement"
       generatedSql := some generatedSql }, tr)
  else
    let generatedSql := injectTop generatedSql limit
    let tr := { tr with injectedSql := some generatedSql }
    let allValidNames := ts.map qualifiedLower
    let queryLower := pyLower generatedSql
    if allValidNames.any (fun n => containsSubstr queryLower n) = false then
      ({ question := question
         error := some "Generated query references invalid tables"
         generatedSql := some generatedSql
         availableTables := some (fullNames ts) }, tr)
    else
      let tr := { tr with executedGenerated := some generatedSql }
      match env.execQuery generatedSql with
      | .error e =>
        ({ question := question
           error := some ("SQL execution failed: " ++ e)
           generatedSql := some generatedSql
           availableTables := some (fullNames ts)
           suggestion := some "Check table/column names and permissions" }, tr)
      | .ok results =>
        let tr := { tr with resultsFetched := some results }
        if results = [] then
          noResultsStage env question ts generatedSql queryLower allValidNames tr
        else
          summaryStage env question limit generatedSql results tr k

/-- Function `smart_analyze_question` (src/server.py lines 310-438).  Returns the JSON
payload together with the observational trace of the run.  The function is
total: every exception a helper can raise is routed exactly where the source's
`try`/`except` structure routes it. -/
def smartAnalyzeQuestion (env : Env) (question : String) (limit : Nat) :
    AnalyzeResponse × Trace :=
  match env.listTables with
  | .error e => (analysisFailed question e, {})
  | .ok ts =>
    let tr : Trace := { tablesListed := some ts }
    if ts = [] then
      ({ question := question
         error := some "No tables found in Fabric SQL Database"
         suggestion := some "Check your connection and table permissions" }, tr)
    else
      match env.tablesInfo with
      | .error e => (analysisFailed question e, tr)
      | .ok info =>
        let prompt := env.buildPrompt question info limit
        match env.llm 0 with
        | .error e => (analysisFailed question e, { tr with genPrompts := [prompt] })
        | .ok raw0 =>
          let gen0 := cleanGeneratedSql raw0
          if pyUpper (pyStrip gen0) = "INSUFFICIENT_DATA" then
            let tr := { tr with genPrompts := [prompt, relaxPrompt prompt] }
            match env.llm 1 with
            | .error e => (analysisFailed question e, tr)
            | .ok raw1 => afterGeneration env question limit ts (cleanGeneratedSql raw1) tr 2
          else
            afterGeneration env question limit ts gen0 { tr with genPrompts := [prompt] } 1

/-! Embedding of execute_query (src/server.py lines 65-84). -/

/-- Behavior of the ODBC connection underlying one `execute_query` call:
whether each driver operation succeeds, the cursor description (None or the
column names), and the fetched rows (lists of cell values). -/
structure ExecEnv where
  connectOk : Bool
  cursorOk : Bool
  execOk : Bool
  descriptionCols : Option (List String)
  fetchOk : Bool
  fetchedRows : List (List String)
  cursorCloseOk : Bool
  deriving DecidableEq, Repr

/-- One row mapped to a column-keyed record:
`{columns[i]: value for i, value in enumerate(row)}`.  Indexing `columns[i]`
raises `IndexError` when the row is longer than the description.  (Python
builds a dict, so duplicate column names would collapse; an association list
keeps them, which no claim observes.) -/
def mapRowToRecord (columns : List String) (row : List String) :
    Except String (List (String × String)) :=
  if row.length ≤ columns.length then .ok ((columns.take row.length).zip row)
  else .error "IndexError: list index out of range"

/-- The result-list comprehension of `execute_query`; the first failing row
raises. -/
def buildRecords (columns : List String) :
    List (List String) → Except String (List (List (String × String)))
  | [] => .ok []
  | r :: rs =>
    match mapRowToRecord columns r, buildRecords columns rs with
    | .error e, _ => .error e
    | .ok rec, .ok recs => .ok (rec :: recs)
    | .ok _, .error e => .error e

/-- Function `execute_query` (src/server.py lines 65-84).  Returns the outcome (value
returned, or the message of the exception that propagates), whether a
connection was opened, and whether that connection was closed.  The `finally`
block runs `cursor.close()` and then `conn.close()`; when `conn.cursor()`
itself raised, the name `cursor` was never bound, so the `finally` block raises
`NameError` before reaching `conn.close()`, and likewise a failing
`cursor.close()` skips `conn.close()`. -/
def executeQueryRun (e : ExecEnv) :
    Except String (List (List (String × String))) × Bool × Bool :=
  if e.connectOk = false then (.error "connection failed", false, false)
  else
    let cursorBound := e.cursorOk
    let body : Except String (List (List (String × String))) :=
      if e.cursorOk = false then .error "cursor creation failed"
      else if e.execOk = false then .error "query execution failed"
      else if e.fetchOk = false then .error "fetchall failed"
      else buildRecords (e.descriptionCols.getD []) e.fetchedRows
    let connClosed := cursorBound && e.cursorCloseOk
    let outcome : Except String (List (List (String × String))) :=
      if cursorBound = false then .error "NameError: cursor referenced before assignment"
      else if e.cursorCloseOk = false then .error "cursor close failed"
      else body
    (outcome, true, connClosed)

/-! Embedding of get_database_collation (src/server.py lines 86-98). -/

/-- One call to `get_database_collation` against the module-global cache
`DATABASE_COLLATION` (initially `None`).  `db` is the outcome of the collation
query if it were issued: an exception, or the rows, each row being its
`"Collation"` value (`none` models SQL NULL, i.e. Python `None`).  Returns
(value returned, new cache, whether a database query was issued). -/
def getDatabaseCollation (cache : Option String)
    (db : Except String (List (Option String))) :
    Option String × Option String × Bool :=
  match cache with
  | some v => (some v, some v, false)
  | none =>
    match db with
    | .error _ => (some "Unknown", some "Unknown", true)
    | .ok [] => (some "Unknown", some "Unknown", true)
    | .ok (v :: _) => (v, v, true)

/-! Embedding of the unique-value extraction in get_tables_info (src/server.py lines 236-244). -/

/-- The per-column distinct-values query exactly as built on line 240 of
src/server.py, including the doubled closing bracket after the table name. -/
def uniqueValuesQuery (schema tname col : String) : String :=
  "SELECT DISTINCT [" ++ col ++ "] FROM [" ++ schema ++ "].[" ++ tname ++
  "]] WHERE [" ++ col ++ "] IS NOT NULL"

/-- One `unique_values` dict entry: a value list, or the error placeholder. -/
inductive UniqueEntry where
  | values (vs : List String)
  | errorMsg (msg : String)
  deriving DecidableEq, Repr

/-- String column types sampled for unique values (src/server.py line 238). -/
def stringColumnTypes : List String := ["varchar", "nvarchar", "char", "nchar"]

/-- The unique-values loop of `get_tables_info` (src/server.py lines 236-244)
over the `(COLUMN_NAME, DATA_TYPE)` pairs of one table; `db` is the database's
response to each issued query, a row being its value for the queried column.
A failing column stores `f"Error: {str(e)}"` and the loop continues. -/
def collectUniqueValues (db : String → Except String (List String)) (schema tname : String) :
    List (String × String) → List (String × UniqueEntry)
  | [] => []
  | (cname, dtype) :: rest =>
    if stringColumnTypes.contains dtype then
      (match db (uniqueValuesQuery schema tname cname) with
       | .ok rows => (cname, UniqueEntry.values (rows.take 10))
       | .error e => (cname, UniqueEntry.errorMsg ("Error: " ++ e)))
      :: collectUniqueValues db schema tname rest
    else collectUniqueValues db schema tname rest

/-! Witness environments used by the concrete runs in the theorems below. -/

/-- The last character of a string, when it has one. -/
def lastChar? (s : String) : Option Char := s.data.reverse.head?

/-- Environment witnessing C1: the LLM answers with a non-SELECT statement. -/
def envC1 : Env :=
  { listTables := .ok [⟨"dbo", "DeviceSecurityTable", "dbo.DeviceSecurityTable"⟩]
    tablesInfo := .ok "info"
    buildPrompt := fun _ _ _ => "PROMPT"
    llm := fun _ => .ok "DROP TABLE x"
    execQuery := fun _ => .ok []
    schemaCols := fun _ => .ok []
    renderContext := fun _ => "CTX" }

/-- Environment showing that the table-reference check of
`smart_analyze_question` inspects the limit-injected SQL rather than the
cleaned SQL: the catalog holds the single table `[x].[SELECT TOP 100]` and the
LLM answers `select * from [x].[SELECT]`, whose first case-sensitive `SELECT`
occurrence sits inside the bracketed table name. -/
def envC2x : Env :=
  { listTables := .ok [⟨"x", "SELECT TOP 100", "x.SELECT TOP 100"⟩]
    tablesInfo := .ok "info"
    buildPrompt := fun _ _ _ => "PROMPT"
    llm := fun n => if n = 0 then .ok "select * from [x].[SELECT]" else .ok "answer"
    execQuery := fun _ => .ok ["row"]
    schemaCols := fun _ => .ok []
    renderContext := fun _ => "CTX" }

/-- Environment witnessing C2 (amended): the generated query references a
table absent from the catalog. -/
def envC2 : Env :=
  { listTables := .ok [⟨"dbo", "Good", "dbo.Good"⟩]
    tablesInfo := .ok "info"
    buildPrompt := fun _ _ _ => "PROMPT"
    llm := fun _ => .ok "SELECT * FROM [bad].[t]"
    execQuery := fun _ => .ok []
    schemaCols := fun _ => .ok []
    renderContext := fun _ => "CTX" }

/-- Connection behavior in which `conn.cursor()` raises (for instance the
server severed the connection between `connect` and `cursor`). -/
def cursorFailsEnv : ExecEnv :=
  { connectOk := true
    cursorOk := false
    execOk := true
    descriptionCols := none
    fetchOk := true
    fetchedRows := []
    cursorCloseOk := true }

/-- Connection behavior in which the statement fails but cursor creation and
closing succeed. -/
def execFailsEnv : ExecEnv :=
  { connectOk := true
    cursorOk := true
    execOk := false
    descriptionCols := none
    fetchOk := true
    fetchedRows := []
    cursorCloseOk := true }

/-- Environment witnessing C6: the LLM answers the sentinel twice. -/
def envC6 : Env :=
  { listTables := .ok [⟨"dbo", "T", "dbo.T"⟩]
    tablesInfo := .ok "info"
    buildPrompt := fun _ _ _ => "PROMPT"
    llm := fun _ => .ok "INSUFFICIENT_DATA"
    execQuery := fun _ => .ok []
    schemaCols := fun _ => .ok []
    renderContext := fun _ => "CTX" }

/-- Environment witnessing C8: a listing question with a one-row result. -/
def envC8 : Env :=
  { listTables := .ok [⟨"dbo", "Devices", "dbo.Devices"⟩]
    tablesInfo := .ok "info"
    buildPrompt := fun _ _ _ => "PROMPT"
    llm := fun _ => .ok "SELECT * FROM [dbo].[Devices]"
    execQuery := fun _ => .ok ["row1"]
    schemaCols := fun _ => .ok []
    renderContext := fun _ => "CTX" }

/-! Helper lemmas. -/

theorem leadsWith_append (p l : List Char) : leadsWith p (p ++ l) = true := by
  induction p with
  | nil => rfl
  | cons c cs ih => simp [leadsWith, ih]

theorem leadsWith_exists {p l : List Char} (h : leadsWith p l = true) :
    ∃ t, l = p ++ t := by
  induction p generalizing l with
  | nil => exact ⟨l, rfl⟩
  | cons c cs ih =>
    cases l with
    | nil => simp [leadsWith] at h
    | cons d ds =>
      simp only [leadsWith, Bool.and_eq_true, beq_iff_eq] at h
      obtain ⟨rfl, h2⟩ := h
      obtain ⟨t, rfl⟩ := ih h2
      exact ⟨t, rfl⟩

theorem afterGeneration_trace (env : Env) (question : String) (limit : Nat)
    (ts : List TableRef) (gen : String) (tr : Trace) (k : Nat) :
    ((afterGeneration env question limit ts gen tr k).2.cleanedSql = some gen) ∧
    ((afterGeneration env question limit ts gen tr k).2.genPrompts = tr.genPrompts) ∧
    ((afterGeneration env question limit ts gen tr k).2.tablesListed = tr.tablesListed) := by
  refine ⟨?_, ?_, ?_⟩ <;>
    (unfold afterGeneration noResultsStage summaryStage; dsimp only; (repeat' split) <;> rfl)

theorem afterGeneration_not_select (env : Env) (question : String) (limit : Nat)
    (ts : List TableRef) (gen : String) (tr : Trace) (k : Nat)
    (hsel : startsWithS (pyUpper gen) "SELECT" = false) :
    afterGeneration env question limit ts gen tr k =
      ({ question := question
         error := some "Generated query is not a SELECT statement"
         generatedSql := some gen },
       { tr with cleanedSql := some gen }) := by
  unfold afterGeneration
  rw [if_pos hsel]

theorem smartAnalyze_cases (env : Env) (question : String) (limit : Nat) :
    ((smartAnalyzeQuestion env question limit).2.cleanedSql = none ∧
     (smartAnalyzeQuestion env question limit).2.injectedSql = none ∧
     (smartAnalyzeQuestion env question limit).2.executedGenerated = none ∧
     (smartAnalyzeQuestion env question limit).2.resultsFetched = none ∧
     (smartAnalyzeQuestion env question limit).1.error.isSome = true ∧
     (smartAnalyzeQuestion env question limit).1.question = question) ∨
    (∃ ts gen tr k, env.listTables = .ok ts ∧
       tr.executedGenerated = none ∧ tr.injectedSql = none ∧ tr.tablesListed = some ts ∧
       tr.resultsFetched = none ∧
       smartAnalyzeQuestion env question limit = afterGeneration env question limit ts gen tr k) := by
  unfold smartAnalyzeQuestion
  rcases hl : env.listTables with e | ts
  · left; exact ⟨rfl, rfl, rfl, rfl, rfl, rfl⟩
  · dsimp only
    by_cases hts : ts = []
    · rw [if_pos hts]; left; exact ⟨rfl, rfl, rfl, rfl, rfl, rfl⟩
    · rw [if_neg hts]
      rcases hi : env.tablesInfo with e | info
      · left; exact ⟨rfl, rfl, rfl, rfl, rfl, rfl⟩
      · dsimp only
        rcases h0 : env.llm 0 with e | raw0
        · left; exact ⟨rfl, rfl, rfl, rfl, rfl, rfl⟩
        · dsimp only
          by_cases hsent : pyUpper (pyStrip (cleanGeneratedSql raw0)) = "INSUFFICIENT_DATA"
          · rw [if_pos hsent]
            rcases h1 : env.llm 1 with e | raw1
            · left; exact ⟨rfl, rfl, rfl, rfl, rfl, rfl⟩
            · right; exact ⟨ts, _, _, _, rfl, rfl, rfl, rfl, rfl, rfl⟩
          · rw [if_neg hsent]
            right; exact ⟨ts, _, _, _, rfl, rfl, rfl, rfl, rfl, rfl⟩

/-- C1: in `smart_analyze_question`, a cleaned generated SQL that does not
start with `SELECT` (case-insensitively) yields a result carrying an `error`
field, and that SQL is never passed to `execute_query`: the query-execution
step is unreachable for every such input. -/
theorem C1_non_select_error_never_executes (env : Env) (question : String) (limit : Nat)
    (g : String)
    (hclean : (smartAnalyzeQuestion env question limit).2.cleanedSql = some g)
    (hsel : startsWithS (pyUpper g) "SELECT" = false) :
    (smartAnalyzeQuestion env question limit).1.error.isSome = true ∧
    (smartAnalyzeQuestion env question limit).2.executedGenerated = none := by
  rcases smartAnalyze_cases env question limit with
    ⟨_, _, h3, _, h5, _⟩ | ⟨ts, gen, tr, k, _, hexec, _, _, _, heq⟩
  · exact ⟨h5, h3⟩
  · rw [heq] at hclean ⊢
    have hg : gen = g := by
      have ht := (afterGeneration_trace env question limit ts gen tr k).1
      rw [hclean] at ht
      exact (Option.some.inj ht).symm
    subst hg
    rw [afterGeneration_not_select env question limit ts gen tr k hsel]
    exact ⟨rfl, hexec⟩


/-- Witness for C1 at a concrete run. -/
theorem C1_witness :
    (smartAnalyzeQuestion envC1 "how many devices" 5).1.error.isSome = true ∧
    (smartAnalyzeQuestion envC1 "how many devices" 5).2.executedGenerated = none :=
  C1_non_select_error_never_executes envC1 "how many devices" 5 "DROP TABLE x"
    (by decide) (by decide)

theorem afterGeneration_select_trace (env : Env) (question : String) (limit : Nat)
    (ts : List TableRef) (gen : String) (tr : Trace) (k : Nat)
    (hsel : startsWithS (pyUpper gen) "SELECT" = true) :
    (afterGeneration env question limit ts gen tr k).2.injectedSql =
      some (injectTop gen limit) := by
  unfold afterGeneration noResultsStage summaryStage
  rw [if_neg (by simp [hsel])]
  dsimp only
  (repeat' split) <;> rfl

theorem afterGeneration_invalid (env : Env) (question : String) (limit : Nat)
    (ts : List TableRef) (gen : String) (tr : Trace) (k : Nat)
    (hsel : startsWithS (pyUpper gen) "SELECT" = true)
    (hany : ((ts.map qualifiedLower).any
      (fun n => containsSubstr (pyLower (injectTop gen limit)) n)) = false) :
    afterGeneration env question limit ts gen tr k =
      ({ question := question
         error := some "Generated query references invalid tables"
         generatedSql := some (injectTop gen limit)
         availableTables := some (fullNames ts) },
       { tr with cleanedSql := some gen, injectedSql := some (injectTop gen limit) }) := by
  unfold afterGeneration
  rw [if_neg (by simp [hsel])]
  dsimp only
  rw [if_pos hany]


/-- C2 counterexample: a run whose cleaned generated SQL contains no listed
table's lowercased `[schema].[name]`, yet the result carries no `error` field
and the SQL (after limit injection) is passed to `execute_query`.  The `TOP`
injection rewrites `[x].[SELECT]` into `[x].[SELECT TOP 100]`, which the
post-injection check then accepts. -/
theorem C2_counterexample :
    ((smartAnalyzeQuestion envC2x "q" 100).2.cleanedSql =
        some "select * from [x].[SELECT]") ∧
    ((smartAnalyzeQuestion envC2x "q" 100).2.tablesListed =
        some [{ schema := "x", name := "SELECT TOP 100", fullName := "x.SELECT TOP 100" }]) ∧
    (∀ t ∈ [({ schema := "x", name := "SELECT TOP 100", fullName := "x.SELECT TOP 100" } : TableRef)],
        containsSubstr (pyLower "select * from [x].[SELECT]") (qualifiedLower t) = false) ∧
    (smartAnalyzeQuestion envC2x "q" 100).1.error = none ∧
    (smartAnalyzeQuestion envC2x "q" 100).2.executedGenerated =
      some "select * from [x].[SELECT TOP 100]" := by
  decide

/-- C2 (amended): the table-reference check applies to the SQL after the
`TOP`-limit injection.  If the limit-injected SQL contains no listed table's
lowercased `[schema].[name]` as a substring, the function returns a result
carrying an `error` field together with the list of available table names, and
never passes the SQL to `execute_query`. -/
theorem C2_invalid_tables_error_never_executes (env : Env) (question : String) (limit : Nat)
    (g : String) (ts : List TableRef)
    (hinj : (smartAnalyzeQuestion env question limit).2.injectedSql = some g)
    (htab : (smartAnalyzeQuestion env question limit).2.tablesListed = some ts)
    (hnone : ∀ t ∈ ts, containsSubstr (pyLower g) (qualifiedLower t) = false) :
    (smartAnalyzeQuestion env question limit).1.error.isSome = true ∧
    (smartAnalyzeQuestion env question limit).1.availableTables = some (fullNames ts) ∧
    (smartAnalyzeQuestion env question limit).2.executedGenerated = none := by
  rcases smartAnalyze_cases env question limit with
    ⟨_, h2, _, _, _, _⟩ | ⟨ts0, gen, tr, k, _, hexec, hinjnone, htab0, _, heq⟩
  · rw [h2] at hinj; exact absurd hinj (by simp)
  · rw [heq] at hinj htab ⊢
    have htr := afterGeneration_trace env question limit ts0 gen tr k
    have hts : ts = ts0 := by
      rw [htr.2.2, htab0] at htab
      exact (Option.some.inj htab).symm
    subst hts
    by_cases hsel : startsWithS (pyUpper gen) "SELECT" = false
    · rw [afterGeneration_not_select env question limit ts gen tr k hsel] at hinj
      rw [show ({ tr with cleanedSql := some gen } : Trace).injectedSql = tr.injectedSql from rfl,
        hinjnone] at hinj
      exact absurd hinj (by simp)
    · have hsel' : startsWithS (pyUpper gen) "SELECT" = true := by
        cases h : startsWithS (pyUpper gen) "SELECT" <;> simp_all
      have hg : g = injectTop gen limit := by
        have h2 := (afterGeneration_select_trace env question limit ts gen tr k hsel').symm.trans hinj
        exact (Option.some.inj h2).symm
      have hany : ((ts.map qualifiedLower).any
          (fun n => containsSubstr (pyLower (injectTop gen limit)) n)) = false := by
        rw [List.any_eq_false]
        intro n hn
        rw [List.mem_map] at hn
        obtain ⟨t, ht, rfl⟩ := hn
        rw [hg] at hnone
        simp [hnone t ht]
      rw [afterGeneration_invalid env question limit ts gen tr k hsel' hany]
      exact ⟨rfl, rfl, hexec⟩


/-- Witness for the amended C2 at a concrete run. -/
theorem C2_witness :
    (smartAnalyzeQuestion envC2 "q" 3).1.error.isSome = true ∧
    (smartAnalyzeQuestion envC2 "q" 3).1.availableTables =
      some (fullNames [{ schema := "dbo", name := "Good", fullName := "dbo.Good" }]) ∧
    (smartAnalyzeQuestion envC2 "q" 3).2.executedGenerated = none :=
  C2_invalid_tables_error_never_executes envC2 "q" 3 "SELECT TOP 3 * FROM [bad].[t]"
    [{ schema := "dbo", name := "Good", fullName := "dbo.Good" }]
    (by decide) (by decide) (by decide)

theorem data_append (s t : String) : (s ++ t).data = s.data ++ t.data := by
  cases s; cases t; rfl

theorem replaceFirstL_of_leads {pat rep l : List Char}
    (h : leadsWith pat l = true) (hne : pat ≠ []) :
    replaceFirstL pat rep l = rep ++ l.drop pat.length := by
  cases l with
  | nil =>
    cases pat with
    | nil => exact absurd rfl hne
    | cons p ps => simp [leadsWith] at h
  | cons c t =>
    unfold replaceFirstL
    rw [if_pos h]

/-- C3 counterexample: the cleaned SQL `select * from [dbo].[t]` starts with
`SELECT` case-insensitively and lacks any `TOP`, yet the limit-injection step
leaves it unchanged — no `TOP 100` is inserted anywhere — because
`str.replace("SELECT", ..., 1)` is case-sensitive and the string contains no
uppercase `SELECT`. -/
theorem C3_counterexample :
    (startsWithS (pyUpper "select * from [dbo].[t]") "SELECT" = true) ∧
    (containsSubstr (pyUpper "select * from [dbo].[t]") "TOP" = false) ∧
    injectTop "select * from [dbo].[t]" 100 = "select * from [dbo].[t]" ∧
    containsSubstr (pyUpper (injectTop "select * from [dbo].[t]" 100)) "TOP" = false := by
  decide

/-- C3 (amended): the limit-injection step replaces the first case-sensitive
occurrence of `SELECT`.  When the cleaned SQL starts with the uppercase
literal `SELECT` and its uppercased text does not contain `TOP`, the step
inserts `TOP {limit}` immediately after that first `SELECT`, so the resulting
SQL begins `SELECT TOP {limit}`; a query whose leading `select` is not
uppercase is left unchanged (see the counterexample). -/
theorem C3_top_injection (sql : String) (limit : Nat)
    (hsel : startsWithS sql "SELECT" = true)
    (htop : containsSubstr (pyUpper sql) "TOP" = false) :
    injectTop sql limit =
      "SELECT TOP " ++ toString limit ++ String.mk (sql.data.drop 6) ∧
    startsWithS (injectTop sql limit) ("SELECT TOP " ++ toString limit) = true := by
  have hmain : injectTop sql limit =
      "SELECT TOP " ++ toString limit ++ String.mk (sql.data.drop 6) := by
    unfold injectTop
    rw [if_pos htop]
    unfold replaceFirst
    rw [replaceFirstL_of_leads hsel (by decide)]
    apply String.ext
    rw [data_append, data_append, data_append]
    rfl
  refine ⟨hmain, ?_⟩
  rw [hmain]
  unfold startsWithS
  rw [show ("SELECT TOP " ++ toString limit ++ String.mk (sql.data.drop 6)) =
      (("SELECT TOP " ++ toString limit) ++ String.mk (sql.data.drop 6)) from by
    rw [String.append_assoc]]
  rw [data_append]
  exact leadsWith_append _ _

/-- Witness for the amended C3 at a concrete query and limit. -/
theorem C3_witness :
    injectTop "SELECT * FROM [dbo].[Devices]" 7 =
      "SELECT TOP " ++ toString 7 ++ String.mk ("SELECT * FROM [dbo].[Devices]".data.drop 6) ∧
    startsWithS (injectTop "SELECT * FROM [dbo].[Devices]" 7)
      ("SELECT TOP " ++ toString 7) = true :=
  C3_top_injection "SELECT * FROM [dbo].[Devices]" 7 (by decide) (by decide)



/-- C4: evaluation of `execute_query` at the failing input.  When
`conn.cursor()` raises, the connection is opened but never closed: the
`finally` block hits the unbound name `cursor` and raises `NameError` before
`conn.close()`.  By contrast, a run in which the cursor is created and closes
cleanly does close the connection even when the statement fails. -/
theorem C4_connection_leak_on_cursor_failure :
    ((executeQueryRun cursorFailsEnv).2.1 = true ∧
     (executeQueryRun cursorFailsEnv).2.2 = false ∧
     (executeQueryRun cursorFailsEnv).1 =
       .error "NameError: cursor referenced before assignment") ∧
    ((executeQueryRun execFailsEnv).2.1 = true ∧
     (executeQueryRun execFailsEnv).2.2 = true ∧
     (executeQueryRun execFailsEnv).1 = .error "query execution failed") :=
  ⟨⟨rfl, rfl, rfl⟩, ⟨rfl, rfl, rfl⟩⟩

/-- C5 counterexample: when the first collation query succeeds but the row's
`Collation` value is NULL, the code stores Python `None` back into the global,
which is indistinguishable from the never-initialized state, so the second
call issues a database query again — contradicting the claim that every
subsequent call is served from the cache. -/
theorem C5_counterexample :
    ((getDatabaseCollation none (.ok [none])).2.2 = true) ∧
    ((getDatabaseCollation none (.ok [none])).2.1 = none) ∧
    ((getDatabaseCollation (getDatabaseCollation none (.ok [none])).2.1
        (.ok [some "X"])).2.2 = true) := by
  decide

/-- C5 (amended): the first call issues the query and stores its outcome
(`"Unknown"` on failure or empty result); whenever the stored value is
non-null, every subsequent call returns the cached value and issues no
database query.  In the one remaining case — a successful first query whose
collation value is NULL — the global stays unset and the next call queries
again. -/
theorem C5_collation_memoized (db1 db2 : Except String (List (Option String))) :
    ((getDatabaseCollation none db1).2.2 = true) ∧
    (∀ e, db1 = .error e → (getDatabaseCollation none db1).2.1 = some "Unknown") ∧
    (∀ v, (getDatabaseCollation none db1).2.1 = some v →
      (getDatabaseCollation (getDatabaseCollation none db1).2.1 db2).2.2 = false ∧
      (getDatabaseCollation (getDatabaseCollation none db1).2.1 db2).1 = some v ∧
      (getDatabaseCollation (getDatabaseCollation none db1).2.1 db2).2.1 = some v) ∧
    ((getDatabaseCollation none db1).2.1 = none →
      (getDatabaseCollation (getDatabaseCollation none db1).2.1 db2).2.2 = true) := by
  rcases db1 with e | l
  · simp [getDatabaseCollation]
  · cases l with
    | nil => simp [getDatabaseCollation]
    | cons v rest =>
      cases v with
      | none =>
        cases db2 with
        | error e => simp [getDatabaseCollation]
        | ok l2 => cases l2 with
          | nil => simp [getDatabaseCollation]
          | cons w r2 => simp [getDatabaseCollation]
      | some s => simp [getDatabaseCollation]

/-- Witness for the amended C5: a failing first query caches `"Unknown"`;
the second call issues no query and returns the cached value. -/
theorem C5_witness :
    ((getDatabaseCollation none (.error "connection failed")).2.2 = true) ∧
    ((getDatabaseCollation (getDatabaseCollation none (.error "connection failed")).2.1
        (.ok [some "X"])).2.2 = false) ∧
    ((getDatabaseCollation (getDatabaseCollation none (.error "connection failed")).2.1
        (.ok [some "X"])).1 = some "Unknown") := by
  have h := C5_collation_memoized (.error "connection failed") (.ok [some "X"])
  exact ⟨h.1, (h.2.2.1 "Unknown" (by decide)).1, (h.2.2.1 "Unknown" (by decide)).2.1⟩

theorem afterGeneration_genPrompts (env : Env) (question : String) (limit : Nat)
    (ts : List TableRef) (gen : String) (tr : Trace) (k : Nat) :
    (afterGeneration env question limit ts gen tr k).2.genPrompts = tr.genPrompts :=
  (afterGeneration_trace env question limit ts gen tr k).2.1

theorem afterGeneration_cleanedSql (env : Env) (question : String) (limit : Nat)
    (ts : List TableRef) (gen : String) (tr : Trace) (k : Nat) :
    (afterGeneration env question limit ts gen tr k).2.cleanedSql = some gen :=
  (afterGeneration_trace env question limit ts gen tr k).1

/-- C6: the LLM is re-asked exactly when the cleaned response, stripped and
uppercased, equals the sentinel `INSUFFICIENT_DATA`; in that case exactly one
extra generation call is made, with the prompt relaxed by
`prompt.replace("If uncertain, ...", "Make a best-guess query ...")`, and its
cleaned response is used as-is — a second sentinel answer is not retried.
When the first cleaned response is not the sentinel, exactly one generation
prompt is ever sent. -/
theorem C6_insufficient_data_retry (env : Env) (question : String) (limit : Nat)
    (ts : List TableRef) (info raw0 : String)
    (hts : env.listTables = .ok ts) (hne : ts ≠ [])
    (hinfo : env.tablesInfo = .ok info) (h0 : env.llm 0 = .ok raw0) :
    (pyUpper (pyStrip (cleanGeneratedSql raw0)) = "INSUFFICIENT_DATA" →
        (smartAnalyzeQuestion env question limit).2.genPrompts =
          [env.buildPrompt question info limit,
           relaxPrompt (env.buildPrompt question info limit)] ∧
        ∀ raw1, env.llm 1 = .ok raw1 →
          (smartAnalyzeQuestion env question limit).2.cleanedSql =
            some (cleanGeneratedSql raw1)) ∧
    (pyUpper (pyStrip (cleanGeneratedSql raw0)) ≠ "INSUFFICIENT_DATA" →
        (smartAnalyzeQuestion env question limit).2.genPrompts =
          [env.buildPrompt question info limit] ∧
        (smartAnalyzeQuestion env question limit).2.cleanedSql =
          some (cleanGeneratedSql raw0)) := by
  unfold smartAnalyzeQuestion
  rw [hts]
  dsimp only
  rw [if_neg hne, hinfo]
  dsimp only
  rw [h0]
  dsimp only
  constructor
  · intro hsent
    rw [if_pos hsent]
    rcases h1 : env.llm 1 with e | raw1
    · refine ⟨rfl, ?_⟩
      intro raw1' h1'
      cases h1'
    · refine ⟨?_, ?_⟩
      · dsimp only
        rw [afterGeneration_genPrompts]
      · intro raw1' h1'
        cases h1'
        dsimp only
        rw [afterGeneration_cleanedSql]
  · intro hsent
    rw [if_neg hsent]
    exact ⟨by rw [afterGeneration_genPrompts], by rw [afterGeneration_cleanedSql]⟩


/-- Witness for C6 at a concrete run: one retry with the relaxed prompt, and
the second sentinel response is kept (it then fails the SELECT check rather
than being retried again). -/
theorem C6_witness :
    (smartAnalyzeQuestion envC6 "q" 10).2.genPrompts =
      ["PROMPT", relaxPrompt "PROMPT"] ∧
    (smartAnalyzeQuestion envC6 "q" 10).2.cleanedSql = some "INSUFFICIENT_DATA" := by
  have h := C6_insufficient_data_retry envC6 "q" 10 [⟨"dbo", "T", "dbo.T"⟩] "info"
    "INSUFFICIENT_DATA" rfl (by decide) rfl rfl
  have h2 := h.1 (by decide)
  exact ⟨h2.1, h2.2 "INSUFFICIENT_DATA" rfl⟩

/-- C7: evaluation of the sample extractor at a failing input.  The per-column
distinct-values query is built with a doubled closing bracket after the table
name (`[dbo].[T]] WHERE ...`, src/server.py line 240) — unlike every other
query builder in the file — so against a conforming SQL server it can never
return the column's values: the table reference is malformed, every such query
fails, each entry becomes the `Error:` placeholder, and the loop still
continues over the remaining string columns while skipping non-string ones.
On the (unreachable) success path the stored list is truncated to ten values. -/
theorem C7_malformed_unique_values_query :
    (uniqueValuesQuery "dbo" "DeviceSecurityTable" "Severity" =
      "SELECT DISTINCT [Severity] FROM [dbo].[DeviceSecurityTable]] WHERE [Severity] IS NOT NULL") ∧
    (collectUniqueValues (fun _ => .error "Incorrect syntax") "dbo" "T"
        [("C", "varchar"), ("D", "nvarchar"), ("N", "int")] =
      [("C", UniqueEntry.errorMsg "Error: Incorrect syntax"),
       ("D", UniqueEntry.errorMsg "Error: Incorrect syntax")]) ∧
    (collectUniqueValues
        (fun _ => .ok ["a", "b", "c", "d", "e", "f", "g", "h", "i", "j", "k", "l"])
        "dbo" "T" [("C", "nchar")] =
      [("C", UniqueEntry.values ["a", "b", "c", "d", "e", "f", "g", "h", "i", "j"])]) := by
  decide

theorem isListing_eq_spec (q : String) :
    isListingQuestion q = listingSpecification q := by
  unfold isListingQuestion listingSpecification
  dsimp only
  simp only [listingWords, List.any_cons, List.any_nil]
  rw [show pyLower "list" = "list" from by decide,
      show pyLower "show" = "show" from by decide,
      show pyLower "display" = "display" from by decide,
      show pyLower "which" = "which" from by decide,
      show pyLower "what" = "what" from by decide]

theorem afterGeneration_summary (env : Env) (question : String) (limit : Nat)
    (ts : List TableRef) (gen : String) (tr : Trace) (k : Nat) (rs : List String)
    (hrf : tr.resultsFetched = none)
    (hrs : (afterGeneration env question limit ts gen tr k).2.resultsFetched = some rs)
    (hne : rs ≠ []) :
    (afterGeneration env question limit ts gen tr k).2.summaryPrompts =
      [if isListingQuestion question = true then
          listingAnalysisPrompt (env.renderContext (rs.take limit)) question
        else directAnalysisPrompt (env.renderContext (rs.take limit)) question] := by
  revert hrs
  unfold afterGeneration noResultsStage summaryStage
  dsimp only
  (repeat' split) <;> intro hrs <;> simp_all

theorem afterGeneration_resp (env : Env) (question : String) (limit : Nat)
    (ts : List TableRef) (gen : String) (tr : Trace) (k : Nat) :
    (afterGeneration env question limit ts gen tr k).1.question = question ∧
    ((afterGeneration env question limit ts gen tr k).1.error.isSome = true ∨
     (afterGeneration env question limit ts gen tr k).1.analysis.isSome = true) := by
  unfold afterGeneration noResultsStage summaryStage analysisFailed
  dsimp only
  (repeat' split) <;> simp

/-- C8: the summarizer classifies a question as a listing request exactly when,
after leading whitespace, it begins case-insensitively with one of `list`,
`show`, `display`, `which`, `what` at a word boundary (`isListingQuestion`
agrees with the claim-side `listingSpecification` on every question); and
whenever a non-empty result set reaches the summarization stage, exactly one
further LLM prompt is sent — the numbered-list template for listing requests
and the direct-answer template otherwise. -/
theorem C8_listing_classification (env : Env) (question : String) (limit : Nat) :
    (isListingQuestion question = listingSpecification question) ∧
    (∀ rs, (smartAnalyzeQuestion env question limit).2.resultsFetched = some rs → rs ≠ [] →
      (smartAnalyzeQuestion env question limit).2.summaryPrompts =
        [if isListingQuestion question = true then
            listingAnalysisPrompt (env.renderContext (rs.take limit)) question
          else directAnalysisPrompt (env.renderContext (rs.take limit)) question]) := by
  refine ⟨isListing_eq_spec question, ?_⟩
  intro rs hrs hne
  rcases smartAnalyze_cases env question limit with
    ⟨_, _, _, hrf, _, _⟩ | ⟨ts, gen, tr, k, _, _, _, _, hrfnone, heq⟩
  · rw [hrf] at hrs; cases hrs
  · rw [heq] at hrs ⊢
    rw [afterGeneration_summary env question limit ts gen tr k rs hrfnone hrs hne]

/-- C9: `smart_analyze_question` is total at its interface.  For every
question, limit, and behavior of the database and the LLM (including any of
them raising), it returns a mapping — never propagates an exception — whose
`question` key is bound to the input question and which carries an `error`
field or an `analysis` field. -/
theorem C9_total_interface (env : Env) (question : String) (limit : Nat) :
    (smartAnalyzeQuestion env question limit).1.question = question ∧
    ((smartAnalyzeQuestion env question limit).1.error.isSome = true ∨
     (smartAnalyzeQuestion env question limit).1.analysis.isSome = true) := by
  rcases smartAnalyze_cases env question limit with
    ⟨_, _, _, _, herr, hq⟩ | ⟨ts, gen, tr, k, _, _, _, _, _, heq⟩
  · exact ⟨hq, Or.inl herr⟩
  · rw [heq]
    exact afterGeneration_resp env question limit ts gen tr k


/-- Witness for C8 at a concrete run reaching the summarization stage. -/
theorem C8_witness :
    (smartAnalyzeQuestion envC8 "list devices" 5).2.summaryPrompts =
      [if isListingQuestion "list devices" = true then
          listingAnalysisPrompt (envC8.renderContext (["row1"].take 5)) "list devices"
        else directAnalysisPrompt (envC8.renderContext (["row1"].take 5)) "list devices"] :=
  (C8_listing_classification envC8 "list devices" 5).2 ["row1"] (by decide) (by decide)

theorem leadsWith_cons_ne {p c : Char} (ps cs : List Char) (h : (p == c) = false) :
    leadsWith (p :: ps) (c :: cs) = false := by
  simp [leadsWith, h]

theorem dropWhile_append_stop (p : Char → Bool) (x : List Char) (c : Char) (y : List Char)
    (hc : p c = false) :
    (x ++ c :: y).dropWhile p = x.dropWhile p ++ c :: y := by
  induction x with
  | nil => simp [List.dropWhile_cons, hc]
  | cons a as ih =>
    by_cases ha : p a
    · simp [List.dropWhile_cons, ha, ih]
    · simp [List.dropWhile_cons, ha]

/-- For any string identical to `s` on characters, `String.mk s.data = s`. -/
theorem mk_data (s : String) : String.mk s.data = s := by
  cases s; rfl


theorem dropWhile_cons_false {p : Char → Bool} {a : Char} (l : List Char) (h : p a = false) :
    (a :: l).dropWhile p = a :: l := by
  simp [List.dropWhile_cons, h]

/-- Stripping whitespace from a character list that starts with the uppercase
letters of `SELECT` leaves that prefix intact: the leading scan stops at `S`
and the trailing scan stops no later than `T`. -/
theorem stripL_select_prefix (z : List Char) :
    ∃ u, stripL isPySpace ('S' :: 'E' :: 'L' :: 'E' :: 'C' :: 'T' :: z) =
      'S' :: 'E' :: 'L' :: 'E' :: 'C' :: 'T' :: u := by
  refine ⟨(z.reverse.dropWhile isPySpace).reverse, ?_⟩
  unfold stripL
  rw [dropWhile_cons_false _ (show isPySpace 'S' = false from by decide)]
  rw [show ('S' :: 'E' :: 'L' :: 'E' :: 'C' :: 'T' :: z : List Char) =
      ['S', 'E', 'L', 'E', 'C', 'T'] ++ z from rfl]
  rw [List.reverse_append]
  rw [show (['S', 'E', 'L', 'E', 'C', 'T'] : List Char).reverse =
      'T' :: ['C', 'E', 'L', 'E', 'S'] from rfl]
  rw [dropWhile_append_stop isPySpace z.reverse 'T' ['C', 'E', 'L', 'E', 'S'] (by decide)]
  rw [List.reverse_append]
  rfl

theorem leadsWith_eq_cons {p c : Char} (ps cs : List Char) (h : (p == c) = true) :
    leadsWith (p :: ps) (c :: cs) = leadsWith ps cs := by
  simp [leadsWith, h]

/-- C10: `clean_generated_sql` is the identity on already-clean queries —
any string starting with the literal `SELECT`, with no leading or trailing
whitespace, not starting with a code fence, and not ending in a backtick is
returned unchanged. -/
theorem C10_clean_sql_identity (sql : String)
    (h1 : startsWithS sql "SELECT" = true)
    (h2a : sql.data.dropWhile isPySpace = sql.data)
    (h2b : sql.data.reverse.dropWhile isPySpace = sql.data.reverse)
    (h3 : startsWithS sql "```" = false)
    (h4 : lastChar? sql ≠ some '`') :
    cleanGeneratedSql sql = sql := by
  obtain ⟨t, ht⟩ := leadsWith_exists (h1 : leadsWith "SELECT".data sql.data = true)
  have hdata : sql.data = 'S' :: 'E' :: 'L' :: 'E' :: 'C' :: 'T' :: t := ht
  have hstrip : pyStrip sql = sql := by
    unfold pyStrip stripL
    rw [h2a, h2b, List.reverse_reverse, mk_data]
  have hlowdata : (pyLower sql).data =
      's' :: 'e' :: 'l' :: 'e' :: 'c' :: 't' :: t.map Char.toLower := by
    show (String.mk (sql.data.map Char.toLower)).data = _
    rw [hdata]
    rfl
  have hp1 : stripPrefixOnce sql "```sql" = sql := by
    have hc : startsWithS (pyLower sql) (pyLower "```sql") = false := by
      unfold startsWithS
      rw [hlowdata, show (pyLower "```sql").data =
        '`' :: '`' :: '`' :: 's' :: 'q' :: 'l' :: [] from rfl]
      exact leadsWith_cons_ne _ _ (by decide)
    unfold stripPrefixOnce
    rw [hc]
    simp
  have hp2 : stripPrefixOnce sql "sql:" = sql := by
    have hc : startsWithS (pyLower sql) (pyLower "sql:") = false := by
      unfold startsWithS
      rw [hlowdata, show (pyLower "sql:").data = 's' :: 'q' :: 'l' :: ':' :: [] from rfl]
      rw [leadsWith_eq_cons _ _ (by decide)]
      exact leadsWith_cons_ne _ _ (by decide)
    unfold stripPrefixOnce
    rw [hc]
    simp
  have hp3 : stripPrefixOnce sql "SQL:" = sql := by
    have hc : startsWithS (pyLower sql) (pyLower "SQL:") = false := by
      unfold startsWithS
      rw [hlowdata, show (pyLower "SQL:").data = 's' :: 'q' :: 'l' :: ':' :: [] from rfl]
      rw [leadsWith_eq_cons _ _ (by decide)]
      exact leadsWith_cons_ne _ _ (by decide)
    unfold stripPrefixOnce
    rw [hc]
    simp
  have hp4 : stripPrefixOnce sql "Query:" = sql := by
    have hc : startsWithS (pyLower sql) (pyLower "Query:") = false := by
      unfold startsWithS
      rw [hlowdata, show (pyLower "Query:").data =
        'q' :: 'u' :: 'e' :: 'r' :: 'y' :: ':' :: [] from rfl]
      exact leadsWith_cons_ne _ _ (by decide)
    unfold stripPrefixOnce
    rw [hc]
    simp
  have hfold : List.foldl stripPrefixOnce sql ["```sql", "sql:", "SQL:", "Query:"] = sql := by
    simp only [List.foldl_cons, List.foldl_nil, hp1, hp2, hp3, hp4]
  have hrstrip : pyRstripBackticks sql = sql := by
    unfold pyRstripBackticks
    cases hrev : sql.data.reverse with
    | nil =>
      have : sql.data = [] := by
        have h5 := congrArg List.reverse hrev
        simpa using h5
      rw [hdata] at this
      cases this
    | cons c r =>
      have hcb : (c == '`') = false := by
        have hl : lastChar? sql = some c := by
          unfold lastChar?
          rw [hrev]
          rfl
        have hne : c ≠ '`' := fun hc => h4 (hc ▸ hl)
        exact beq_eq_false_iff_ne.mpr hne
      rw [@dropWhile_cons_false (fun x => x == '`') c r hcb]
      rw [← hrev]
      rw [List.reverse_reverse, mk_data]
  have hupdata : (pyUpper sql).data =
      'S' :: 'E' :: 'L' :: 'E' :: 'C' :: 'T' :: t.map Char.toUpper := by
    show (String.mk (sql.data.map Char.toUpper)).data = _
    rw [hdata]
    rfl
  obtain ⟨u, hu⟩ := stripL_select_prefix (t.map Char.toUpper)
  have hsqlUpper : (pyStrip (pyUpper sql)).data =
      'S' :: 'E' :: 'L' :: 'E' :: 'C' :: 'T' :: u := by
    show stripL isPySpace (pyUpper sql).data = _
    rw [hupdata, hu]
  have hTOP : startsWithS (pyStrip (pyUpper sql)) "TOP " = false := by
    unfold startsWithS
    rw [hsqlUpper, show ("TOP " : String).data = 'T' :: 'O' :: 'P' :: ' ' :: [] from rfl]
    exact leadsWith_cons_ne _ _ (by decide)
  have hSEL : startsWithS (pyStrip (pyUpper sql)) "SELECT" = true := by
    unfold startsWithS
    rw [hsqlUpper, show ("SELECT" : String).data = ['S', 'E', 'L', 'E', 'C', 'T'] from rfl]
    simp [leadsWith]
  unfold cleanGeneratedSql
  dsimp only
  rw [hstrip]
  rw [if_neg (show ¬(startsWithS sql "```" = true) from by rw [h3]; simp)]
  rw [hfold, hstrip, hrstrip, hTOP, hSEL]
  simp

/-- Witness for C10 at a concrete already-clean query. -/
theorem C10_witness :
    cleanGeneratedSql "SELECT TOP 5 * FROM [dbo].[Devices]" =
      "SELECT TOP 5 * FROM [dbo].[Devices]" :=
  C10_clean_sql_identity "SELECT TOP 5 * FROM [dbo].[Devices]"
    (by decide) (by decide) (by decide) (by decide) (by decide)
